import Mathlib

/-
Verification development for the songrating travel-blog repository.

The repository is client-side JavaScript: `src/js/blog.js` (article loading,
rendering and filtering) and `src/js/map.js` (Leaflet map with word-count-sized
"blob" polygons), together with two earlier snapshots of the map module,
`src/unnamed/part_000` (the country-clipping variant) and `src/unnamed/part_001`
(the plain organic-blob variant).

The embedding below translates the data model and the functions the claims are
about.  JavaScript numbers are modelled as real numbers; `Math.random()` is
modelled as an explicit stream `rand : Nat -> Real` of draws, consumed one draw
per generated vertex, in program order.  Strings are Lean strings;
`toLowerCase` is an ASCII-faithful character map; `String.prototype.includes`
is substring containment.  Namespaces: `Blog` embeds `src/js/blog.js`,
`MapRetro` embeds `src/js/map.js`, `MapClip` embeds `src/unnamed/part_000`,
`MapSimple` embeds `src/unnamed/part_001`.  Definitions shared by several
variants verbatim (the article record, the city-aggregation loop, the
country-polygon lookup, the coordinate axis swap) are declared once at top
level.
-/

/-- An article record, as described by `data/articles.json` and consumed by
both `blog.js` and the map modules: id, title, city, country, coordinates
(latitude, longitude), year, wordCount, content, and the optional tags list
(`article.tags` may be absent, modelled as `Option`). Fields not used by any
claim (date, readingTime, images, mood) are omitted. -/
structure Article where
  id : Nat
  title : String
  city : String
  country : String
  coordinates : ℝ × ℝ
  year : Int
  wordCount : Nat
  content : String
  tags : Option (List String)

/-- The city-aggregate value built by `addCityMarkers` (identical in
`src/js/map.js` lines 112-119, `part_000` lines 152-159 and `part_001`
lines 74-81): `{ city, country, coordinates, articles: [], totalWords: 0 }`
subsequently filled by pushing articles and summing word counts. -/
structure CityData where
  city : String
  country : String
  coordinates : ℝ × ℝ
  articles : List Article
  totalWords : Nat

/-- The grouping key used by `addCityMarkers` in every variant:
the template literal `` `${article.city}-${article.country}` ``. -/
def cityKey (article : Article) : String :=
  article.city ++ "-" ++ article.country

/-- The effect of `citiesMap[key].articles.push(article);
citiesMap[key].totalWords += article.wordCount;` on the entry whose key
matches, leaving the other entries unchanged. -/
def updateEntry (a : Article) (p : String × CityData) : String × CityData :=
  if p.1 == cityKey a then
    (p.1, { p.2 with articles := p.2.articles ++ [a],
                     totalWords := p.2.totalWords + a.wordCount })
  else p

/-- The entry created by `addCityMarkers` when `!citiesMap[key]`, with the
immediately following push and word-count addition folded in:
`{ city, country, coordinates, articles: [article], totalWords: wordCount }`. -/
def newEntry (a : Article) : String × CityData :=
  (cityKey a,
   { city := a.city, country := a.country, coordinates := a.coordinates,
     articles := [a], totalWords := a.wordCount })

/-- One iteration of the `articles.forEach` grouping loop of `addCityMarkers`.
The JavaScript object `citiesMap` is modelled as an association list in
insertion order (string-keyed JavaScript objects preserve insertion order). -/
def addArticleToCities (m : List (String × CityData)) (a : Article) :
    List (String × CityData) :=
  if m.any (fun p => p.1 == cityKey a) then m.map (updateEntry a)
  else m ++ [newEntry a]

/-- The complete grouping pass of `addCityMarkers`: fold the grouping loop
over the article list, starting from the empty `citiesMap = {}`. -/
def buildCitiesMap (articles : List Article) : List (String × CityData) :=
  articles.foldl addArticleToCities []

/-- Sum of `totalWords` over all city aggregates. -/
def sumTW (m : List (String × CityData)) : Nat :=
  (m.map (fun e => e.2.totalWords)).sum

/-- Sum of `wordCount` over an article list. -/
def sumWC (l : List Article) : Nat :=
  (l.map (fun a => a.wordCount)).sum

/-- A feature of the `europe.geojson` boundary dataset as read by
`getCountryPolygon`: `properties.name`, `properties.name_en`, and a polygon
geometry given by its coordinate rings in (longitude, latitude) order. -/
structure Feature where
  name : String
  name_en : String
  geometry : List (List (ℝ × ℝ))

/-- `getCountryPolygon` (identical in `src/js/map.js` lines 40-49 and
`part_000` lines 44-53): `null` when `europeBoundaries` was never loaded,
otherwise the geometry of the first feature whose `name` or `name_en` equals
the country name, or `null` when none matches. -/
def getCountryPolygon (europeBoundaries : Option (List Feature))
    (countryName : String) : Option (List (List (ℝ × ℝ))) :=
  match europeBoundaries with
  | none => none
  | some bs =>
    match bs.find? (fun f => f.name == countryName || f.name_en == countryName) with
    | some feature => some feature.geometry
    | none => none

/-- The axis swap applied when handing a blob to the clipping capability:
`coords.map(c => [c[1], c[0]])` (`src/js/map.js` line 67, `part_000`
line 108), converting Leaflet (lat, lon) pairs to GeoJSON (lon, lat). -/
def toLonLat (coords : List (ℝ × ℝ)) : List (ℝ × ℝ) :=
  coords.map (fun c => (c.2, c.1))

/-- The axis swap applied to an intersection result coming back from the
clipping capability: `ring.map(c => [c[1], c[0]])` (`src/js/map.js` line 76,
`part_000` lines 129-131), converting GeoJSON (lon, lat) back to Leaflet
(lat, lon). -/
def toLatLon (coords : List (ℝ × ℝ)) : List (ℝ × ℝ) :=
  coords.map (fun c => (c.2, c.1))

/-- Model of `String.prototype.toLowerCase()`: lower-case every character. -/
def jsToLower (s : String) : String :=
  ⟨s.data.map Char.toLower⟩

/-- Model of `String.prototype.includes(t)`: `t` occurs as a contiguous
substring of `s`. -/
def jsIncludes (s t : String) : Prop :=
  t.data <:+: s.data

instance (s t : String) : Decidable (jsIncludes s t) := by
  unfold jsIncludes; exact inferInstance

namespace Blog

/-- The synthetic searchable text built by `filterArticles` in
`src/js/blog.js` (lines 152-158): a template literal concatenating title,
city, country, content and `article.tags?.join(' ')` with the literal's
newlines and indentation.  When `tags` is absent, the optional chain yields
`undefined`, which the template literal interpolates as the string
`"undefined"`. -/
def searchableText (article : Article) : String :=
  "\n        " ++ article.title ++ " \n        " ++ article.city ++
    " \n        " ++ article.country ++ " \n        " ++ article.content ++
    "\n        " ++
    (match article.tags with
     | some tags => String.intercalate " " tags
     | none => "undefined") ++ "\n      "

/-- The per-article predicate of `filterArticles` (`src/js/blog.js` lines
147-164).  `country`/`year` are the raw select values (`""` when unset);
`searchTerm` is the already lower-cased search input.  JavaScript string
truthiness (`if (country && ...)`) is non-emptiness. -/
def keepArticle (country year searchTerm : String) (article : Article) : Bool :=
  if country ≠ "" ∧ article.country ≠ country then false
  else if year ≠ "" ∧ toString article.year ≠ year then false
  else if searchTerm ≠ "" ∧
      ¬ jsIncludes (jsToLower (searchableText article)) searchTerm then false
  else true

/-- `filterArticles` (`src/js/blog.js` lines 142-164): lower-case the search
input, then filter the full article list. -/
def filterArticles (allArticles : List Article)
    (country year searchRaw : String) : List Article :=
  let searchTerm := jsToLower searchRaw
  allArticles.filter (fun article => keepArticle country year searchTerm article)

/-- `resetFilters` (`src/js/blog.js` lines 171-180): the filtered list is set
to `[...allArticles]`, a shallow copy, which as a list value is the full list
itself. -/
def resetFilters (allArticles : List Article) : List Article :=
  allArticles

end Blog

-- Helper lemmas for substring containment.

theorem jsIncludes_refl (s : String) : jsIncludes s s :=
  ⟨[], [], by simp⟩

theorem jsIncludes_append_left (u : String) {s t : String}
    (h : jsIncludes s t) : jsIncludes (u ++ s) t := by
  obtain ⟨x, y, hxy⟩ := h
  exact ⟨u.data ++ x, y, by simp [hxy, String.data_append]⟩

theorem jsIncludes_append_right (u : String) {s t : String}
    (h : jsIncludes s t) : jsIncludes (s ++ u) t := by
  obtain ⟨x, y, hxy⟩ := h
  exact ⟨x, y ++ u.data, by simp [String.data_append, ← hxy]⟩

theorem jsIncludes_toLower {s t : String} (h : jsIncludes s t) :
    jsIncludes (jsToLower s) (jsToLower t) := by
  obtain ⟨x, y, hxy⟩ := h
  exact ⟨x.map Char.toLower, y.map Char.toLower, by simp [jsToLower, ← hxy]⟩

theorem jsToLower_eq_empty {s : String} : jsToLower s = "" ↔ s = "" := by
  constructor
  · intro h
    have hd : (jsToLower s).data = ("" : String).data := by rw [h]
    simp only [jsToLower] at hd
    have hs : s.data = [] := by simpa using hd
    obtain ⟨d⟩ := s
    simp only [String.data] at hs
    rw [hs]
  · intro h; rw [h]; rfl

namespace MapRetro

/-- `const baseRadius = Math.sqrt(wordCount) * 0.020;`
(`src/js/map.js` line 55). -/
noncomputable def baseRadius (wordCount : ℝ) : ℝ :=
  Real.sqrt wordCount * 0.020

/-- `const maxRadius = Math.max(baseRadius, 0.35);`
(`src/js/map.js` line 56). -/
noncomputable def maxRadius (wordCount : ℝ) : ℝ :=
  max (baseRadius wordCount) 0.35

/-- `generateSimpleBlob` (`src/js/map.js` lines 85-101): 14 vertices, one per
evenly spaced angle, each at distance `radius * (0.7 + Math.random() * 0.6)`
from the centre, with the first vertex pushed again at the end
(`coords.push(coords[0])`, modelled as appending `coords.take 1`).  The i-th
loop iteration consumes the i-th draw of the random stream. -/
noncomputable def generateSimpleBlob (center : ℝ × ℝ) (radius : ℝ)
    (rand : ℕ → ℝ) : List (ℝ × ℝ) :=
  let coords := (List.range 14).map (fun (i : ℕ) =>
    let angle := Real.pi * 2 / 14 * (i : ℝ)
    let r := radius * (0.7 + rand i * 0.6)
    (center.1 + r * Real.cos angle, center.2 + r * Real.sin angle))
  coords ++ coords.take 1

/-- `generateBlob` (`src/js/map.js` lines 51-83).  The clipping capability
(`turf.intersect` applied to the blob rings and the country polygon rings) is
an explicit parameter: `Except.error` models a thrown geometric error,
`Except.ok none` a `null` intersection, and `Except.ok (some rings)` a feature
whose geometry has coordinate rings `rings`; `clipped.geometry.coordinates[0]`
is truthy exactly when a first ring exists.  On the early-return path (no
country polygon, or `turf` undefined) the first 14 random draws are consumed;
when the intersection fails the final `return generateSimpleBlob(...)`
generates a fresh blob from the next 14 draws. -/
noncomputable def generateBlob (center : ℝ × ℝ) (wordCount : ℝ)
    (countryName : String) (europeBoundaries : Option (List Feature))
    (turfAvailable : Bool)
    (intersect : List (List (ℝ × ℝ)) → List (List (ℝ × ℝ)) →
      Except Unit (Option (List (List (ℝ × ℝ)))))
    (rand : ℕ → ℝ) : List (ℝ × ℝ) :=
  match getCountryPolygon europeBoundaries countryName, turfAvailable with
  | none, _ => generateSimpleBlob center (maxRadius wordCount) rand
  | some _, false => generateSimpleBlob center (maxRadius wordCount) rand
  | some countryPolygon, true =>
    let initialBlob := generateSimpleBlob center (maxRadius wordCount) rand
    match intersect [toLonLat initialBlob] countryPolygon with
    | Except.ok (some (ring :: _)) => toLatLon ring
    | _ => generateSimpleBlob center (maxRadius wordCount) (fun i => rand (14 + i))

/-- The popup template literal of `addCityMarkers` (`src/js/map.js` lines
142-149): city name, country, a separator rule, and the total word count. -/
def popupContent (cityData : CityData) : String :=
  "\n      <div style=\"text-align: center; min-width: 140px;\">\n        <strong style=\"font-size: 18px; color: #00ff00;\">" ++
    cityData.city ++
    "</strong><br>\n        <span style=\"font-size: 14px; color: #0f0;\">" ++
    cityData.country ++
    "</span><br>\n        <span style=\"font-size: 13px; color: #0a0;\">─────────</span><br>\n        <span style=\"font-size: 14px;\">" ++
    toString cityData.totalWords ++
    " Wörter</span>\n      </div>\n    "

end MapRetro

namespace MapClip

/-- `const baseRadius = Math.sqrt(wordCount) * 0.03;`
(`src/unnamed/part_000` line 61). -/
noncomputable def baseRadius (wordCount : ℝ) : ℝ :=
  Real.sqrt wordCount * 0.03

/-- `const radius = Math.max(baseRadius, 0.5);`
(`src/unnamed/part_000` line 62). -/
noncomputable def radius (wordCount : ℝ) : ℝ :=
  max (baseRadius wordCount) 0.5

/-- `generateBlobCoordinates` (`src/unnamed/part_000` lines 56-87): 10
vertices at distance `radius * (0.5 + Math.random() * 1.0)`, polygon closed by
pushing the first vertex again.  The unused `colorScheme` parameter of the
source is kept. -/
noncomputable def generateBlobCoordinates (center : ℝ × ℝ) (wordCount : ℝ)
    (colorScheme : List (String × String)) (rand : ℕ → ℝ) : List (ℝ × ℝ) :=
  let coordinates := (List.range 10).map (fun (i : ℕ) =>
    let angle := Real.pi * 2 / 10 * (i : ℝ)
    let randomFactor := 0.5 + rand i * 1.0
    let distance := radius wordCount * randomFactor
    (center.1 + distance * Real.cos angle, center.2 + distance * Real.sin angle))
  coordinates ++ coordinates.take 1

/-- `clipBlobToCountry` (`src/unnamed/part_000` lines 90-140).  Returns the
original `blobCoords` when `turf` is undefined, when no country polygon
matches, when `turf.intersect` throws, when it returns `null`, and when the
result geometry has no first ring (in the source that last case throws on
`undefined.map` inside the `try` and is caught).  On success the first ring is
converted back to (lat, lon) order. -/
def clipBlobToCountry (blobCoords : List (ℝ × ℝ)) (countryName : String)
    (europeBoundaries : Option (List Feature)) (turfAvailable : Bool)
    (intersect : List (List (ℝ × ℝ)) → List (List (ℝ × ℝ)) →
      Except Unit (Option (List (List (ℝ × ℝ))))) : List (ℝ × ℝ) :=
  if turfAvailable then
    match getCountryPolygon europeBoundaries countryName with
    | none => blobCoords
    | some countryPolygon =>
      match intersect [toLonLat blobCoords] countryPolygon with
      | Except.ok (some (ring :: _)) => toLatLon ring
      | _ => blobCoords
  else blobCoords

end MapClip

namespace MapSimple

/-- `const baseRadius = Math.sqrt(wordCount) * 0.008;`
(`src/unnamed/part_001` line 36). -/
noncomputable def baseRadius (wordCount : ℝ) : ℝ :=
  Real.sqrt wordCount * 0.008

/-- `const radius = Math.max(baseRadius, 0.15);`
(`src/unnamed/part_001` line 37). -/
noncomputable def radius (wordCount : ℝ) : ℝ :=
  max (baseRadius wordCount) 0.15

/-- `generateBlobCoordinates` (`src/unnamed/part_001` lines 32-62): 8 vertices
at distance `radius * (0.6 + Math.random() * 0.8)`, polygon closed by pushing
the first vertex again. -/
noncomputable def generateBlobCoordinates (center : ℝ × ℝ) (wordCount : ℝ)
    (colorScheme : List (String × String)) (rand : ℕ → ℝ) : List (ℝ × ℝ) :=
  let coordinates := (List.range 8).map (fun (i : ℕ) =>
    let angle := Real.pi * 2 / 8 * (i : ℝ)
    let randomFactor := 0.6 + rand i * 0.8
    let distance := radius wordCount * randomFactor
    (center.1 + distance * Real.cos angle, center.2 + distance * Real.sin angle))
  coordinates ++ coordinates.take 1

/-- The popup template literal of `addCityMarkers` (`src/unnamed/part_001`
lines 108-115, identical in `part_000` lines 189-196): city name in the
country colour, country, article count, and total word count. -/
def popupContent (color : String) (cityData : CityData) : String :=
  "\n      <div style=\"text-align: center; min-width: 150px;\">\n        <h3 style=\"margin: 0 0 10px 0; color: " ++
    color ++
    "; font-size: 1.3em;\">" ++
    cityData.city ++
    "</h3>\n        <p style=\"margin: 5px 0; color: #666;\"><strong>" ++
    cityData.country ++
    "</strong></p>\n        <p style=\"margin: 5px 0;\">" ++
    toString cityData.articles.length ++
    " Artikel</p>\n        <p style=\"margin: 5px 0; font-size: 0.9em; color: #999;\">" ++
    toString cityData.totalWords ++
    " Wörter</p>\n      </div>\n    "

/-- The value stored in `cityMarkers[key]` by `part_001`'s `addCityMarkers`
(line 159): the object literal `{ blob, marker }`.  Leaflet identifies layers
by a stamped numeric id (`L.Util.stamp`); the model records the id stamped on
the wrapper object itself (`objId`, assigned when the object is first handed
to `map.removeLayer`) and the ids of the blob polygon and the circle marker
that were added to the map.  Layer payloads (coordinates, popup, handlers)
play no role in layer removal and are not recorded. -/
structure CityLayers where
  objId : Nat
  blob : Nat
  marker : Nat
  deriving DecidableEq

/-- The render-relevant state of `part_001`'s map module: the set of stamped
layer ids currently on the Leaflet map (`map._layers`), the `cityMarkers`
registry, and the next fresh stamp. -/
structure MapState where
  mapLayers : List Nat
  cityMarkers : List (String × CityLayers)
  nextId : Nat
  deriving DecidableEq

/-- `L.Map.removeLayer(obj)`: stamps `obj` and removes it from `map._layers`
if it is there; for an object that is not on the map it silently does
nothing (`if (!this._layers[id]) { return this; }`). -/
def removeLayer (mapLayers : List Nat) (objId : Nat) : List Nat :=
  mapLayers.erase objId

/-- `addCityMarkers` of `src/unnamed/part_001` (lines 65-161), modelled at the
level of layer identity.  The clearing loop
`Object.values(cityMarkers).forEach(marker => map.removeLayer(marker));`
passes the `{ blob, marker }` wrapper objects — not the layers inside them —
to `removeLayer`; each wrapper carries its own stamp (`objId`), which was
never added to the map.  Then `cityMarkers = {}`, and for each city aggregate
a blob polygon and a circle marker are created, stamped with fresh ids, added
to the map, and registered in a fresh wrapper. -/
def addCityMarkers (s : MapState) (articles : List Article) : MapState :=
  let cleared := s.cityMarkers.foldl
    (fun ly e => removeLayer ly e.2.objId) s.mapLayers
  let cities := buildCitiesMap articles
  cities.foldl
    (fun st kv =>
      let blobId := st.nextId
      let markerId := st.nextId + 1
      let wrapId := st.nextId + 2
      { mapLayers := st.mapLayers ++ [blobId, markerId],
        cityMarkers := st.cityMarkers ++ [(kv.1, ⟨wrapId, blobId, markerId⟩)],
        nextId := st.nextId + 3 })
    { mapLayers := cleared, cityMarkers := [], nextId := s.nextId }

end MapSimple

/-- Invariant of the grouping loop of `addCityMarkers`, relating the
association list `m` to the articles `seen` processed so far: keys are
pairwise distinct; every key is the city-country template of its entry; every
entry's (city, country) pair comes from a seen article; every seen article's
key has an entry; and the total word counts sum to the seen word counts. -/
def CitiesOK (seen : List Article) (m : List (String × CityData)) : Prop :=
  m.Pairwise (fun e1 e2 => e1.1 ≠ e2.1)
  ∧ (∀ e ∈ m, e.1 = e.2.city ++ "-" ++ e.2.country)
  ∧ (∀ e ∈ m, ∃ a ∈ seen, a.city = e.2.city ∧ a.country = e.2.country)
  ∧ (∀ a ∈ seen, ∃ e ∈ m, e.1 = cityKey a)
  ∧ sumTW m = sumWC seen

/-- A sample article (city Porto, Portugal, 500 words, year 2023). -/
def exPorto : Article :=
  { id := 1, title := "Hallo Porto", city := "Porto", country := "Portugal",
    coordinates := (41.15, -8.61), year := 2023, wordCount := 500,
    content := "Inhalt", tags := some ["reise"] }

/-- A second sample article in the same city. -/
def exPorto2 : Article :=
  { id := 2, title := "Porto nochmal", city := "Porto", country := "Portugal",
    coordinates := (41.15, -8.61), year := 2022, wordCount := 700,
    content := "Mehr Inhalt", tags := none }

/-- An article whose city contains a hyphen: city `a-b`, country `c`. -/
def exColl1 : Article :=
  { id := 3, title := "t1", city := "a-b", country := "c",
    coordinates := (0, 0), year := 2022, wordCount := 1,
    content := "x", tags := none }

/-- An article with a different (city, country) pair, city `a`, country
`b-c`, whose grouping key collides with that of `exColl1`:
both keys are the string `a-b-c`. -/
def exColl2 : Article :=
  { id := 4, title := "t2", city := "a", country := "b-c",
    coordinates := (0, 0), year := 2022, wordCount := 2,
    content := "y", tags := none }

/-- A random stream whose first 14 draws are 0 and whose later draws are 1/2;
all draws lie in the range of `Math.random()`. -/
noncomputable def cexRand : ℕ → ℝ :=
  fun n => if n < 14 then 0 else 1/2

/-- A city aggregate holding 7 articles and 100 total words. -/
def cexCity : CityData :=
  { city := "Porto", country := "Portugal", coordinates := (41.15, -8.61),
    articles := List.replicate 7 exPorto, totalWords := 100 }

example : jsToLower "AbC" = "abc" := by decide
example : jsIncludes "hello world" "lo wo" := by decide
example : ¬ jsIncludes "hello" "z" := by decide

-- Helper lemmas for the city-aggregation invariant.

theorem updateEntry_fst (a : Article) (p : String × CityData) :
    (updateEntry a p).1 = p.1 := by
  unfold updateEntry; split <;> rfl

theorem updateEntry_city (a : Article) (p : String × CityData) :
    (updateEntry a p).2.city = p.2.city ∧
      (updateEntry a p).2.country = p.2.country := by
  unfold updateEntry; split <;> exact ⟨rfl, rfl⟩

theorem updateEntry_of_ne (a : Article) (p : String × CityData)
    (h : p.1 ≠ cityKey a) : updateEntry a p = p := by
  unfold updateEntry
  rw [if_neg]
  simp [h]

theorem map_updateEntry_of_forall_ne (a : Article)
    (m : List (String × CityData)) (h : ∀ p ∈ m, p.1 ≠ cityKey a) :
    m.map (updateEntry a) = m := by
  induction m with
  | nil => rfl
  | cons p rest ih =>
    simp only [List.map_cons]
    rw [updateEntry_of_ne a p (h p (List.mem_cons_self p rest)),
      ih (fun q hq => h q (List.mem_cons_of_mem p hq))]

theorem sumTW_map_update (a : Article) :
    ∀ m : List (String × CityData),
      m.Pairwise (fun e1 e2 => e1.1 ≠ e2.1) →
      (∃ p ∈ m, p.1 = cityKey a) →
      sumTW (m.map (updateEntry a)) = sumTW m + a.wordCount := by
  intro m
  induction m with
  | nil => rintro - ⟨p, hp, -⟩; simp at hp
  | cons p rest ih =>
    intro hpw hex
    rw [List.pairwise_cons] at hpw
    by_cases hk : p.1 = cityKey a
    · have hrest : rest.map (updateEntry a) = rest :=
        map_updateEntry_of_forall_ne a rest
          (fun q hq hqk => (hpw.1 q hq) (by rw [hk, ← hqk]))
      simp only [List.map_cons, hrest]
      unfold updateEntry
      rw [if_pos (by simp [hk])]
      simp [sumTW]
      omega
    · have hex' : ∃ q ∈ rest, q.1 = cityKey a := by
        obtain ⟨q, hq, hq1⟩ := hex
        rcases List.mem_cons.mp hq with h | h
        · exact absurd (h ▸ hq1) hk
        · exact ⟨q, h, hq1⟩
      simp only [List.map_cons, updateEntry_of_ne a p hk]
      have := ih hpw.2 hex'
      simp [sumTW] at this ⊢
      omega

theorem citiesOK_step (seen : List Article) (m : List (String × CityData))
    (a : Article) (h : CitiesOK seen m) :
    CitiesOK (seen ++ [a]) (addArticleToCities m a) := by
  obtain ⟨hpw, hkey, hpair, hcov, hsum⟩ := h
  unfold addArticleToCities
  by_cases hany : m.any (fun p => p.1 == cityKey a) = true
  · rw [if_pos hany]
    obtain ⟨p0, hp0, hp0k⟩ := List.any_eq_true.mp hany
    rw [beq_iff_eq] at hp0k
    refine ⟨?_, ?_, ?_, ?_, ?_⟩
    · refine List.Pairwise.map _ ?_ hpw
      intro e1 e2 hne
      rw [updateEntry_fst, updateEntry_fst]
      exact hne
    · intro e he
      obtain ⟨p, hp, rfl⟩ := List.mem_map.mp he
      rw [updateEntry_fst, (updateEntry_city a p).1, (updateEntry_city a p).2]
      exact hkey p hp
    · intro e he
      obtain ⟨p, hp, rfl⟩ := List.mem_map.mp he
      obtain ⟨b, hb, hb1, hb2⟩ := hpair p hp
      exact ⟨b, List.mem_append_left _ hb,
        by rw [(updateEntry_city a p).1]; exact hb1,
        by rw [(updateEntry_city a p).2]; exact hb2⟩
    · intro b hb
      rcases List.mem_append.mp hb with hb | hb
      · obtain ⟨e, he, he1⟩ := hcov b hb
        exact ⟨updateEntry a e, List.mem_map_of_mem _ he,
          by rw [updateEntry_fst]; exact he1⟩
      · have hba : b = a := by simpa using hb
        rw [hba]
        exact ⟨updateEntry a p0, List.mem_map_of_mem _ hp0,
          by rw [updateEntry_fst]; exact hp0k⟩
    · rw [sumTW_map_update a m hpw ⟨p0, hp0, hp0k⟩, hsum]
      simp [sumWC]
  · rw [if_neg hany]
    have hnone : ∀ p ∈ m, p.1 ≠ cityKey a := by
      intro p hp hpk
      exact hany (List.any_eq_true.mpr ⟨p, hp, beq_iff_eq.mpr hpk⟩)
    refine ⟨?_, ?_, ?_, ?_, ?_⟩
    · rw [List.pairwise_append]
      exact ⟨hpw, List.pairwise_singleton _ _,
        fun e he e' he' => by
          have : e' = newEntry a := by simpa using he'
          subst this
          exact hnone e he⟩
    · intro e he
      rcases List.mem_append.mp he with he | he
      · exact hkey e he
      · have : e = newEntry a := by simpa using he
        subst this
        rfl
    · intro e he
      rcases List.mem_append.mp he with he | he
      · obtain ⟨b, hb, hb1, hb2⟩ := hpair e he
        exact ⟨b, List.mem_append_left _ hb, hb1, hb2⟩
      · have : e = newEntry a := by simpa using he
        subst this
        exact ⟨a, List.mem_append_right _ (List.mem_singleton_self a), rfl, rfl⟩
    · intro b hb
      rcases List.mem_append.mp hb with hb | hb
      · obtain ⟨e, he, he1⟩ := hcov b hb
        exact ⟨e, List.mem_append_left _ he, he1⟩
      · have hba : b = a := by simpa using hb
        rw [hba]
        exact ⟨newEntry a, List.mem_append_right _ (List.mem_singleton_self _), rfl⟩
    · simp only [sumTW, sumWC, List.map_append, List.sum_append] at hsum ⊢
      simp [newEntry, hsum]

theorem citiesOK_fold :
    ∀ (L : List Article) (seen : List Article) (m : List (String × CityData)),
      CitiesOK seen m →
      CitiesOK (seen ++ L) (L.foldl addArticleToCities m) := by
  intro L
  induction L with
  | nil => intro seen m h; simpa using h
  | cons a L ih =>
    intro seen m h
    have h' := ih (seen ++ [a]) (addArticleToCities m a) (citiesOK_step seen m a h)
    simpa [List.append_assoc] using h'

theorem buildCitiesMap_ok (L : List Article) : CitiesOK L (buildCitiesMap L) := by
  have h0 : CitiesOK [] [] := by
    refine ⟨List.Pairwise.nil, ?_, ?_, ?_, rfl⟩ <;> simp
  have := citiesOK_fold L [] [] h0
  simpa [buildCitiesMap] using this

theorem filter_pair_length_le_one (m : List (String × CityData)) (c k : String)
    (hpw : m.Pairwise (fun e1 e2 => e1.1 ≠ e2.1))
    (hkey : ∀ e ∈ m, e.1 = e.2.city ++ "-" ++ e.2.country) :
    (m.filter (fun e => e.2.city == c && e.2.country == k)).length ≤ 1 := by
  have hsub := List.filter_sublist (l := m)
    (p := fun e => e.2.city == c && e.2.country == k)
  have hpwf := hpw.sublist hsub
  revert hpwf
  cases hflv : m.filter (fun e => e.2.city == c && e.2.country == k) with
  | nil => simp
  | cons e1 tl =>
    cases tl with
    | nil => simp
    | cons e2 rest =>
      intro hpwf
      exfalso
      have h1 : e1 ∈ m.filter (fun e => e.2.city == c && e.2.country == k) := by
        rw [hflv]; exact List.mem_cons_self _ _
      have h2 : e2 ∈ m.filter (fun e => e.2.city == c && e.2.country == k) := by
        rw [hflv]; exact List.mem_cons_of_mem _ (List.mem_cons_self _ _)
      have hm1 := List.mem_filter.mp h1
      have hm2 := List.mem_filter.mp h2
      have hp1 := hm1.2
      have hp2 := hm2.2
      simp only [Bool.and_eq_true, beq_iff_eq] at hp1 hp2
      have hk1 : e1.1 = c ++ "-" ++ k := by
        rw [hkey e1 hm1.1, hp1.1, hp1.2]
      have hk2 : e2.1 = c ++ "-" ++ k := by
        rw [hkey e2 hm2.1, hp2.1, hp2.2]
      have hne : e1.1 ≠ e2.1 :=
        (List.pairwise_cons.mp hpwf).1 e2 (List.mem_cons_self _ _)
      exact hne (hk1.trans hk2.symm)

-- The filter predicate of blog.js, characterised.

theorem keep_iff (c y s : String) (a : Article) :
    Blog.keepArticle c y s a = true ↔
      (c ≠ "" → a.country = c) ∧ (y ≠ "" → toString a.year = y) ∧
        (s ≠ "" → jsIncludes (jsToLower (Blog.searchableText a)) s) := by
  unfold Blog.keepArticle
  split_ifs with h1 h2 h3
  · simp only [Bool.false_eq_true, false_iff]
    rintro ⟨hc, -, -⟩
    exact h1.2 (hc h1.1)
  · simp only [Bool.false_eq_true, false_iff]
    rintro ⟨-, hy, -⟩
    exact h2.2 (hy h2.1)
  · simp only [Bool.false_eq_true, false_iff]
    rintro ⟨-, -, hs⟩
    exact h3.2 (hs h3.1)
  · simp only [true_iff]
    refine ⟨fun hc => ?_, fun hy => ?_, fun hs => ?_⟩
    · by_contra hne
      exact h1 ⟨hc, hne⟩
    · by_contra hne
      exact h2 ⟨hy, hne⟩
    · by_contra hne
      exact h3 ⟨hs, hne⟩

-- Structural facts about the generated blobs.

theorem simpleBlob_length_closed (center : ℝ × ℝ) (radius : ℝ) (rand : ℕ → ℝ) :
    (MapRetro.generateSimpleBlob center radius rand).length = 14 + 1 ∧
      (MapRetro.generateSimpleBlob center radius rand).head? =
        (MapRetro.generateSimpleBlob center radius rand).getLast? :=
  ⟨rfl, rfl⟩

theorem jsToLower_empty : jsToLower "" = "" := rfl

theorem radius_law_aux (k m w1 w2 : ℝ) (hk : 0 ≤ k) (h12 : w1 ≤ w2) :
    m ≤ max (Real.sqrt w1 * k) m ∧
      max (Real.sqrt w1 * k) m ≤ max (Real.sqrt w2 * k) m :=
  ⟨le_max_right _ _,
   max_le_max (mul_le_mul_of_nonneg_right (Real.sqrt_le_sqrt h12) hk) le_rfl⟩

/-- C3: an article passes `filterArticles` exactly when (for a set country
filter value) its country equals the value, and (for a set year filter value)
the textual form of its year equals the value, and (for a set search term)
the lower-cased term occurs as a substring of the lower-cased synthetic text
built from title, city, country, content and joined tags. -/
theorem c3_filter_predicate (L : List Article)
    (country year searchRaw : String) (a : Article) :
    a ∈ Blog.filterArticles L country year searchRaw ↔
      a ∈ L ∧ (country ≠ "" → a.country = country) ∧
        (year ≠ "" → toString a.year = year) ∧
        (searchRaw ≠ "" →
          jsIncludes (jsToLower (Blog.searchableText a)) (jsToLower searchRaw)) := by
  unfold Blog.filterArticles
  rw [List.mem_filter, keep_iff]
  simp only [ne_eq, jsToLower_eq_empty, and_assoc]

/-- C4: the filtered list is always a subset of the full list; with all three
filter values empty the filtered list is exactly the full list; and
`resetFilters` restores exactly the full list. -/
theorem c4_filter_subset_reset (L : List Article) (country year searchRaw : String) :
    (∀ a ∈ Blog.filterArticles L country year searchRaw, a ∈ L) ∧
      Blog.filterArticles L "" "" "" = L ∧ Blog.resetFilters L = L := by
  refine ⟨fun a ha => ?_, ?_, rfl⟩
  · unfold Blog.filterArticles at ha
    exact (List.mem_filter.mp ha).1
  · unfold Blog.filterArticles
    refine List.filter_eq_self.mpr fun a ha => ?_
    rw [keep_iff]
    simp [jsToLower_empty]

/-- C5: in each variant the display radius is
`max(sqrt(totalWordCount) * scaleFactor, minimumRadius)` for that variant's
configured constants — (0.020, 0.35) in `src/js/map.js`, (0.03, 0.5) in
`part_000`, (0.008, 0.15) in `part_001` — and, for fixed constants, the
radius is monotone in the word count and never below the floor. -/
theorem c5_blob_radius (w1 w2 : ℕ) (h : w1 ≤ w2) :
    (MapRetro.maxRadius w1 = max (Real.sqrt w1 * 0.020) 0.35 ∧
      (0.35 : ℝ) ≤ MapRetro.maxRadius w1 ∧
      MapRetro.maxRadius w1 ≤ MapRetro.maxRadius w2) ∧
    (MapClip.radius w1 = max (Real.sqrt w1 * 0.03) 0.5 ∧
      (0.5 : ℝ) ≤ MapClip.radius w1 ∧
      MapClip.radius w1 ≤ MapClip.radius w2) ∧
    (MapSimple.radius w1 = max (Real.sqrt w1 * 0.008) 0.15 ∧
      (0.15 : ℝ) ≤ MapSimple.radius w1 ∧
      MapSimple.radius w1 ≤ MapSimple.radius w2) := by
  have hc : ((w1 : ℝ)) ≤ (w2 : ℝ) := Nat.cast_le.mpr h
  unfold MapRetro.maxRadius MapRetro.baseRadius MapClip.radius MapClip.baseRadius
    MapSimple.radius MapSimple.baseRadius
  refine ⟨⟨rfl, ?_, ?_⟩, ⟨rfl, ?_, ?_⟩, ⟨rfl, ?_, ?_⟩⟩
  · exact (radius_law_aux 0.020 0.35 _ _ (by norm_num) hc).1
  · exact (radius_law_aux 0.020 0.35 _ _ (by norm_num) hc).2
  · exact (radius_law_aux 0.03 0.5 _ _ (by norm_num) hc).1
  · exact (radius_law_aux 0.03 0.5 _ _ (by norm_num) hc).2
  · exact (radius_law_aux 0.008 0.15 _ _ (by norm_num) hc).1
  · exact (radius_law_aux 0.008 0.15 _ _ (by norm_num) hc).2

/-- Witness for C5 at word counts 100 and 200. -/
theorem c5_blob_radius_witness :
    (MapRetro.maxRadius ((100 : ℕ) : ℝ) =
        max (Real.sqrt ((100 : ℕ) : ℝ) * 0.020) 0.35 ∧
      (0.35 : ℝ) ≤ MapRetro.maxRadius ((100 : ℕ) : ℝ) ∧
      MapRetro.maxRadius ((100 : ℕ) : ℝ) ≤ MapRetro.maxRadius ((200 : ℕ) : ℝ)) ∧
    (MapClip.radius ((100 : ℕ) : ℝ) =
        max (Real.sqrt ((100 : ℕ) : ℝ) * 0.03) 0.5 ∧
      (0.5 : ℝ) ≤ MapClip.radius ((100 : ℕ) : ℝ) ∧
      MapClip.radius ((100 : ℕ) : ℝ) ≤ MapClip.radius ((200 : ℕ) : ℝ)) ∧
    (MapSimple.radius ((100 : ℕ) : ℝ) =
        max (Real.sqrt ((100 : ℕ) : ℝ) * 0.008) 0.15 ∧
      (0.15 : ℝ) ≤ MapSimple.radius ((100 : ℕ) : ℝ) ∧
      MapSimple.radius ((100 : ℕ) : ℝ) ≤ MapSimple.radius ((200 : ℕ) : ℝ)) :=
  c5_blob_radius 100 200 (by decide)

/-- C6: in every variant and for every centre, word count and random draw,
the generated blob has the configured number of vertices (14 in
`src/js/map.js`, 10 in `part_000`, 8 in `part_001`) plus the closing
duplicate, and is closed: its first and last coordinate pairs coincide. -/
theorem c6_blob_vertices_closed (center : ℝ × ℝ)
    (radius wordCount wordCount2 : ℝ)
    (colorScheme : List (String × String)) (rand : ℕ → ℝ) :
    ((MapRetro.generateSimpleBlob center radius rand).length = 14 + 1 ∧
      (MapRetro.generateSimpleBlob center radius rand).head? =
        (MapRetro.generateSimpleBlob center radius rand).getLast?) ∧
    ((MapClip.generateBlobCoordinates center wordCount colorScheme rand).length = 10 + 1 ∧
      (MapClip.generateBlobCoordinates center wordCount colorScheme rand).head? =
        (MapClip.generateBlobCoordinates center wordCount colorScheme rand).getLast?) ∧
    ((MapSimple.generateBlobCoordinates center wordCount2 colorScheme rand).length = 8 + 1 ∧
      (MapSimple.generateBlobCoordinates center wordCount2 colorScheme rand).head? =
        (MapSimple.generateBlobCoordinates center wordCount2 colorScheme rand).getLast?) :=
  ⟨⟨rfl, rfl⟩, ⟨rfl, rfl⟩, ⟨rfl, rfl⟩⟩

/-- C7: the conversion handing a blob to the clipping capability swaps
(lat, lon) to (lon, lat), the conversion taking a result back swaps (lon, lat)
to (lat, lon), and the two compose to the identity in either order. -/
theorem c7_axis_swap_roundtrip (coords : List (ℝ × ℝ)) :
    toLatLon (toLonLat coords) = coords ∧ toLonLat (toLatLon coords) = coords := by
  have hcomp : ((fun c : ℝ × ℝ => (c.2, c.1)) ∘ fun c : ℝ × ℝ => (c.2, c.1)) = id := by
    funext c
    exact Prod.mk.eta
  constructor <;>
    simp only [toLonLat, toLatLon, List.map_map, hcomp, List.map_id]

/-- C2 counterexample: the grouping key is the string
`city + "-" + country`, which is not injective on (city, country) pairs.
`exColl1` (city `a-b`, country `c`) and `exColl2` (city `a`, country `b-c`)
both get the key `a-b-c`, so the pair (`a`, `b-c`) appears in the article
list yet no aggregate with that city and country is produced — refuting
"every distinct (city, country) pair appearing in the filtered list yields
exactly one aggregate". -/
theorem c2_counterexample :
    (∃ a ∈ [exColl1, exColl2], a.city = "a" ∧ a.country = "b-c") ∧
      ((buildCitiesMap [exColl1, exColl2]).filter
        (fun e => e.2.city == "a" && e.2.country == "b-c")).length = 0 := by
  constructor
  · exact ⟨exColl2, by simp, rfl, rfl⟩
  · decide

/-- C2 (amended): for any article list, the sum of `totalWords` over the
produced aggregates equals the sum of `wordCount` over the articles, and
every aggregate's (city, country) pair appears in some article of the list —
both unconditionally, collision lists included; and provided distinct
(city, country) pairs of the list have distinct `city-country` key strings
(the grouping key is a string concatenation, not the pair itself), every
(city, country) pair appearing in the list yields exactly one aggregate. -/
theorem c2_city_aggregation (L : List Article) :
    sumTW (buildCitiesMap L) = sumWC L ∧
    (∀ e ∈ buildCitiesMap L,
      ∃ a ∈ L, a.city = e.2.city ∧ a.country = e.2.country) ∧
    ((∀ a ∈ L, ∀ b ∈ L, cityKey a = cityKey b →
        a.city = b.city ∧ a.country = b.country) →
      ∀ a ∈ L, ((buildCitiesMap L).filter
        (fun e => e.2.city == a.city && e.2.country == a.country)).length = 1) := by
  obtain ⟨hpw, hkey, hpair, hcov, hsum⟩ := buildCitiesMap_ok L
  refine ⟨hsum, hpair, ?_⟩
  intro hinj a ha
  have hle := filter_pair_length_le_one (buildCitiesMap L) a.city a.country hpw hkey
  have hge : 0 < ((buildCitiesMap L).filter
      (fun e => e.2.city == a.city && e.2.country == a.country)).length := by
    obtain ⟨e, he, he1⟩ := hcov a ha
    obtain ⟨b, hb, hb1, hb2⟩ := hpair e he
    have hkb : cityKey b = cityKey a := by
      unfold cityKey
      rw [hb1, hb2, ← hkey e he]
      exact he1
    obtain ⟨hc, hk⟩ := hinj b hb a ha hkb
    have hmemf : e ∈ (buildCitiesMap L).filter
        (fun e => e.2.city == a.city && e.2.country == a.country) := by
      refine List.mem_filter.mpr ⟨he, ?_⟩
      simp only [Bool.and_eq_true, beq_iff_eq]
      exact ⟨hb1.symm.trans hc, hb2.symm.trans hk⟩
    exact List.length_pos_of_mem hmemf
  omega

/-- Witness for C2 at a two-article list, with the key-injectivity premise of
the third conjunct discharged by computation. -/
theorem c2_city_aggregation_witness :
    sumTW (buildCitiesMap [exPorto, exPorto2]) = sumWC [exPorto, exPorto2] ∧
    (∀ e ∈ buildCitiesMap [exPorto, exPorto2],
      ∃ a ∈ [exPorto, exPorto2], a.city = e.2.city ∧ a.country = e.2.country) ∧
    (∀ a ∈ [exPorto, exPorto2], ((buildCitiesMap [exPorto, exPorto2]).filter
        (fun e => e.2.city == a.city && e.2.country == a.country)).length = 1) :=
  ⟨(c2_city_aggregation [exPorto, exPorto2]).1,
   (c2_city_aggregation [exPorto, exPorto2]).2.1,
   (c2_city_aggregation [exPorto, exPorto2]).2.2 (by decide)⟩

theorem jsIncludes_appendl_refl (u t : String) : jsIncludes (u ++ t) t :=
  jsIncludes_append_left u (jsIncludes_refl t)

set_option maxRecDepth 4000 in
/-- C9 counterexample: in `src/js/map.js` the popup shows city, country and
total word count but not the article count.  For an aggregate of 7 articles
and 100 total words, the digit `7` does not occur anywhere in the popup
content, so the number of articles is not included. -/
theorem c9_counterexample :
    cexCity.articles.length = 7 ∧
      ¬ jsIncludes (MapRetro.popupContent cexCity)
        (toString cexCity.articles.length) := by
  refine ⟨rfl, ?_⟩
  decide

/-- C9 (amended): in the `part_000`/`part_001` variants the blob popup
includes the city name, the country, the article count and the total word
count; in the `src/js/map.js` variant it includes the city name, the country
and the total word count, but not the article count. -/
theorem c9_popup_fields (color : String) (cd : CityData) :
    (jsIncludes (MapSimple.popupContent color cd) cd.city ∧
     jsIncludes (MapSimple.popupContent color cd) cd.country ∧
     jsIncludes (MapSimple.popupContent color cd) (toString cd.articles.length) ∧
     jsIncludes (MapSimple.popupContent color cd) (toString cd.totalWords)) ∧
    (jsIncludes (MapRetro.popupContent cd) cd.city ∧
     jsIncludes (MapRetro.popupContent cd) cd.country ∧
     jsIncludes (MapRetro.popupContent cd) (toString cd.totalWords)) := by
  unfold MapSimple.popupContent MapRetro.popupContent
  refine ⟨⟨?_, ?_, ?_, ?_⟩, ?_, ?_, ?_⟩ <;>
    repeat
      first
        | exact jsIncludes_appendl_refl _ _
        | apply jsIncludes_append_right

/-- C10: when an article has no tags field, `article.tags?.join(' ')` is
`undefined` and the template literal interpolates the string "undefined" into
the searchable text, so with no country or year filter a search for
"undefined" keeps every tag-less article, regardless of its title, city,
country or content. -/
theorem c10_undefined_tag_search (a : Article) (h : a.tags = none) :
    jsIncludes (jsToLower (Blog.searchableText a)) "undefined" ∧
      Blog.keepArticle "" "" (jsToLower "undefined") a = true := by
  have hinc : jsIncludes (Blog.searchableText a) "undefined" := by
    unfold Blog.searchableText
    simp only [h]
    exact jsIncludes_append_right _ (jsIncludes_appendl_refl _ _)
  have hlow : jsIncludes (jsToLower (Blog.searchableText a)) (jsToLower "undefined") :=
    jsIncludes_toLower hinc
  have hu : jsToLower "undefined" = "undefined" := by decide
  rw [hu] at hlow
  refine ⟨hlow, ?_⟩
  rw [hu, keep_iff]
  exact ⟨fun hc => absurd rfl hc, fun hy => absurd rfl hy, fun _ => hlow⟩

/-- Witness for C10 at the tag-less article `exPorto2`. -/
theorem c10_undefined_tag_search_witness :
    jsIncludes (jsToLower (Blog.searchableText exPorto2)) "undefined" ∧
      Blog.keepArticle "" "" (jsToLower "undefined") exPorto2 = true :=
  c10_undefined_tag_search exPorto2 rfl

/-- C8: evaluation of `part_001`'s `addCityMarkers` at a failing input.
Render one article (creating blob layer 0 and marker layer 1), then re-render
with an empty filtered list: the clearing loop passes the `{ blob, marker }`
wrapper (stamp 2) to `map.removeLayer`, which no-ops because the wrapper is
not a map layer, so layers 0 and 1 remain on the map even though the current
aggregate set is empty. -/
theorem c8_stale_layers_eval :
    (MapSimple.addCityMarkers
        (MapSimple.addCityMarkers ⟨[], [], 0⟩ [exPorto]) []).mapLayers = [0, 1] ∧
    (MapSimple.addCityMarkers
        (MapSimple.addCityMarkers ⟨[], [], 0⟩ [exPorto]) []).cityMarkers = [] := by
  exact ⟨rfl, rfl⟩

theorem blobVertex_ne_of_sq_ne (r s θ : ℝ) (h : r ^ 2 ≠ s ^ 2) :
    (r * Real.cos θ, r * Real.sin θ) ≠ (s, 0) := by
  intro he
  rw [Prod.mk.injEq] at he
  apply h
  have hsc := Real.sin_sq_add_cos_sq θ
  calc r ^ 2 = r ^ 2 * (Real.sin θ ^ 2 + Real.cos θ ^ 2) := by rw [hsc]; ring
    _ = (r * Real.sin θ) ^ 2 + (r * Real.cos θ) ^ 2 := by ring
    _ = s ^ 2 := by rw [he.1, he.2]; ring

/-- C1 counterexample: in `src/js/map.js`, when the intersection throws, the
final `return generateSimpleBlob(...)` draws fresh random factors, so the
produced blob is not the blob that was generated before clipping was
attempted.  With the stream `cexRand` (first 14 draws 0, later draws 1/2, all
legal `Math.random()` values), word count 0 and centre (0, 0), the produced
blob contains the point (0.35, 0) while the pre-clipping blob does not, so
the two differ even as point sets. -/
theorem c1_counterexample :
    MapRetro.generateBlob (0, 0) 0 "X" (some [⟨"X", "X", [[]]⟩]) true
        (fun _ _ => Except.error ()) cexRand ≠
      MapRetro.generateSimpleBlob (0, 0) (MapRetro.maxRadius 0) cexRand ∧
    ((0.35 : ℝ), (0 : ℝ)) ∈ MapRetro.generateBlob (0, 0) 0 "X"
        (some [⟨"X", "X", [[]]⟩]) true (fun _ _ => Except.error ()) cexRand ∧
    ((0.35 : ℝ), (0 : ℝ)) ∉ MapRetro.generateSimpleBlob (0, 0)
        (MapRetro.maxRadius 0) cexRand := by
  have hmax : MapRetro.maxRadius 0 = 0.35 := by
    unfold MapRetro.maxRadius MapRetro.baseRadius
    rw [Real.sqrt_zero, zero_mul]
    exact max_eq_right (by norm_num)
  have hblob : MapRetro.generateBlob (0, 0) 0 "X" (some [⟨"X", "X", [[]]⟩]) true
      (fun _ _ => Except.error ()) cexRand =
        MapRetro.generateSimpleBlob (0, 0) (MapRetro.maxRadius 0)
          (fun i => cexRand (14 + i)) := rfl
  have hmem : ((0.35 : ℝ), (0 : ℝ)) ∈ MapRetro.generateSimpleBlob (0, 0)
      (MapRetro.maxRadius 0) (fun i => cexRand (14 + i)) := by
    unfold MapRetro.generateSimpleBlob
    apply List.mem_append_left
    apply List.mem_map.mpr
    refine ⟨0, by simp, ?_⟩
    simp only [cexRand]
    norm_num [hmax, Real.cos_zero, Real.sin_zero]
  have hnot : ((0.35 : ℝ), (0 : ℝ)) ∉ MapRetro.generateSimpleBlob (0, 0)
      (MapRetro.maxRadius 0) cexRand := by
    intro hmem0
    unfold MapRetro.generateSimpleBlob at hmem0
    have hc' : ((0.35 : ℝ), (0 : ℝ)) ∈ (List.range 14).map (fun (i : ℕ) =>
        let angle := Real.pi * 2 / 14 * (i : ℝ)
        let r := MapRetro.maxRadius 0 * (0.7 + cexRand i * 0.6)
        ((0 : ℝ) + r * Real.cos angle, (0 : ℝ) + r * Real.sin angle)) := by
      rcases List.mem_append.mp hmem0 with hc | hc
      · exact hc
      · exact List.take_subset _ _ hc
    obtain ⟨i, hi, heq⟩ := List.mem_map.mp hc'
    rw [List.mem_range] at hi
    have hri : cexRand i = 0 := by simp [cexRand, hi]
    have hsq : (MapRetro.maxRadius 0 * (0.7 + cexRand i * 0.6)) ^ 2 ≠
        (0.35 : ℝ) ^ 2 := by
      rw [hmax, hri]
      norm_num
    have heq' := heq
    simp only [zero_add] at heq'
    exact blobVertex_ne_of_sq_ne
      (MapRetro.maxRadius 0 * (0.7 + cexRand i * 0.6)) 0.35
      (Real.pi * 2 / 14 * (i : ℝ)) hsq heq'
  refine ⟨?_, hblob ▸ hmem, hnot⟩
  intro he
  rw [hblob] at he
  exact hnot (he ▸ hmem)

/-- C1 (amended): whenever clipping fails — clipping capability unavailable,
country polygon not found, the intersection throws, or the intersection
result is null or has no ring — no error propagates: the function totally
returns a blob.  In `clipBlobToCountry` (`part_000`) the returned blob is
exactly the unclipped input blob.  In `generateBlob` (`src/js/map.js`) the
returned blob is an unclipped generated blob with the same centre, radius and
vertex count, closed like every generated blob; it is the pre-clipping blob
itself on the early-return paths (no polygon, `turf` undefined) and a fresh
draw from the next 14 random values on the post-`try` path, so its point set
may differ from the pre-clipping blob's. -/
theorem c1_clip_fallback
    (center : ℝ × ℝ) (wordCount : ℝ) (countryName : String)
    (europeBoundaries : Option (List Feature)) (turfAvailable : Bool)
    (intersect : List (List (ℝ × ℝ)) → List (List (ℝ × ℝ)) →
      Except Unit (Option (List (List (ℝ × ℝ)))))
    (rand : ℕ → ℝ)
    (blobCoords : List (ℝ × ℝ)) (countryName2 : String)
    (europeBoundaries2 : Option (List Feature)) (turfAvailable2 : Bool)
    (intersect2 : List (List (ℝ × ℝ)) → List (List (ℝ × ℝ)) →
      Except Unit (Option (List (List (ℝ × ℝ)))))
    (h1 : getCountryPolygon europeBoundaries countryName = none ∨
      turfAvailable = false ∨
      ∃ poly, getCountryPolygon europeBoundaries countryName = some poly ∧
        (intersect [toLonLat (MapRetro.generateSimpleBlob center
            (MapRetro.maxRadius wordCount) rand)] poly = Except.error () ∨
         intersect [toLonLat (MapRetro.generateSimpleBlob center
            (MapRetro.maxRadius wordCount) rand)] poly = Except.ok none ∨
         intersect [toLonLat (MapRetro.generateSimpleBlob center
            (MapRetro.maxRadius wordCount) rand)] poly = Except.ok (some [])))
    (h2 : turfAvailable2 = false ∨
      getCountryPolygon europeBoundaries2 countryName2 = none ∨
      ∃ poly, getCountryPolygon europeBoundaries2 countryName2 = some poly ∧
        (intersect2 [toLonLat blobCoords] poly = Except.error () ∨
         intersect2 [toLonLat blobCoords] poly = Except.ok none ∨
         intersect2 [toLonLat blobCoords] poly = Except.ok (some []))) :
    (MapRetro.generateBlob center wordCount countryName europeBoundaries
        turfAvailable intersect rand =
      MapRetro.generateSimpleBlob center (MapRetro.maxRadius wordCount) rand ∨
     MapRetro.generateBlob center wordCount countryName europeBoundaries
        turfAvailable intersect rand =
      MapRetro.generateSimpleBlob center (MapRetro.maxRadius wordCount)
        (fun i => rand (14 + i))) ∧
    (MapRetro.generateBlob center wordCount countryName europeBoundaries
        turfAvailable intersect rand).length = 14 + 1 ∧
    (MapRetro.generateBlob center wordCount countryName europeBoundaries
        turfAvailable intersect rand).head? =
      (MapRetro.generateBlob center wordCount countryName europeBoundaries
        turfAvailable intersect rand).getLast? ∧
    MapClip.clipBlobToCountry blobCoords countryName2 europeBoundaries2
        turfAvailable2 intersect2 = blobCoords := by
  have hg : MapRetro.generateBlob center wordCount countryName europeBoundaries
        turfAvailable intersect rand =
      MapRetro.generateSimpleBlob center (MapRetro.maxRadius wordCount) rand ∨
      MapRetro.generateBlob center wordCount countryName europeBoundaries
        turfAvailable intersect rand =
      MapRetro.generateSimpleBlob center (MapRetro.maxRadius wordCount)
        (fun i => rand (14 + i)) := by
    rcases h1 with hp | ht | ⟨poly, hpoly, hcase⟩
    · left
      unfold MapRetro.generateBlob
      rw [hp]
    · cases hpv : getCountryPolygon europeBoundaries countryName with
      | none =>
        left
        unfold MapRetro.generateBlob
        rw [hpv]
      | some poly =>
        left
        unfold MapRetro.generateBlob
        rw [hpv, ht]
    · cases turfAvailable with
      | false =>
        left
        unfold MapRetro.generateBlob
        rw [hpoly]
      | true =>
        right
        unfold MapRetro.generateBlob
        rw [hpoly]
        rcases hcase with hc | hc | hc <;> simp only [hc]
  refine ⟨hg, ?_, ?_, ?_⟩
  · rcases hg with h | h <;> rw [h] <;> rfl
  · rcases hg with h | h <;> rw [h] <;> rfl
  · unfold MapClip.clipBlobToCountry
    rcases h2 with ht | hp | ⟨poly, hpoly, hcase⟩
    · rw [ht]
      exact rfl
    · cases turfAvailable2 with
      | false => exact rfl
      | true =>
        rw [hp]
        exact rfl
    · cases turfAvailable2 with
      | false => exact rfl
      | true =>
        rw [hpoly]
        have hred : (if (true = true) then
            match some poly with
            | none => blobCoords
            | some countryPolygon =>
              match intersect2 [toLonLat blobCoords] countryPolygon with
              | Except.ok (some (ring :: _)) => toLatLon ring
              | _ => blobCoords
          else blobCoords) =
            (match intersect2 [toLonLat blobCoords] poly with
            | Except.ok (some (ring :: _)) => toLatLon ring
            | _ => blobCoords) := rfl
        rw [hred]
        rcases hcase with hc | hc | hc <;> rw [hc]

/-- Witness for C1 with no boundary dataset for the map.js call and an
unavailable clipping capability for the part_000 call. -/
theorem c1_clip_fallback_witness :
    (MapRetro.generateBlob ((0 : ℝ), (0 : ℝ)) 0 "X" none true
        (fun _ _ => Except.ok none) (fun _ => (0 : ℝ)) =
      MapRetro.generateSimpleBlob ((0 : ℝ), (0 : ℝ)) (MapRetro.maxRadius 0)
        (fun _ => (0 : ℝ)) ∨
     MapRetro.generateBlob ((0 : ℝ), (0 : ℝ)) 0 "X" none true
        (fun _ _ => Except.ok none) (fun _ => (0 : ℝ)) =
      MapRetro.generateSimpleBlob ((0 : ℝ), (0 : ℝ)) (MapRetro.maxRadius 0)
        (fun i => (fun _ => (0 : ℝ)) (14 + i))) ∧
    (MapRetro.generateBlob ((0 : ℝ), (0 : ℝ)) 0 "X" none true
        (fun _ _ => Except.ok none) (fun _ => (0 : ℝ))).length = 14 + 1 ∧
    (MapRetro.generateBlob ((0 : ℝ), (0 : ℝ)) 0 "X" none true
        (fun _ _ => Except.ok none) (fun _ => (0 : ℝ))).head? =
      (MapRetro.generateBlob ((0 : ℝ), (0 : ℝ)) 0 "X" none true
        (fun _ _ => Except.ok none) (fun _ => (0 : ℝ))).getLast? ∧
    MapClip.clipBlobToCountry [] "Y" none false
        (fun _ _ => Except.ok none) = [] :=
  c1_clip_fallback ((0 : ℝ), (0 : ℝ)) 0 "X" none true
    (fun _ _ => Except.ok none) (fun _ => (0 : ℝ)) [] "Y" none false
    (fun _ _ => Except.ok none) (Or.inl rfl) (Or.inl rfl)
